import Mathlib

/-!
Verification development for the accuracy-tracker weather verification engine.

The definitions below are a shallow embedding of the TypeScript source:

* `src/services/weatherService.ts` — ground-truth reconciliation
  (`fetchMETARHistory`), forecast normalization (`storeForecast`), the verifier
  (`runVerification`), the bucketed aggregator (`calculateModelVariableStats`)
  and the composite scorer (`calculateCompositeStats`);
* `src/server/src/services/statsService.ts` — the server-side fast leaderboard
  (`calculateLeaderboardFast`);
* `src/constants.ts` — the lead-time buckets, the verification-variable
  catalogue and the minimum-MAE thresholds.

Modelling conventions:

* JavaScript numbers are modelled as real numbers (`ℝ`); epoch-millisecond
  timestamps are integers (`ℤ`); lead times in hours are rationals (`ℚ`),
  since they arise as exact divisions of millisecond differences by 3600000.
  `NaN`/`Infinity` have no counterpart in `ℝ`; the one place the source
  manufactures a `NaN` on purpose (the zero-variable marker row of
  `calculateCompositeStats`, later removed by a `Number.isFinite` filter) is
  modelled as an `Option` that is `none` exactly on that branch, and the
  `Number.isFinite` guards on already-parsed numeric fields are vacuous.
* `null`/`undefined` fields are `Option`; the JavaScript truthiness tests
  `x && x > 0.1` and `x || 0` on nullable numbers are translated by explicit
  `Option` matches noted at their use sites.
* String keys built by template interpolation are modelled as tuples of their
  interpolated components.
-/

/-! ## Data model (src/types.ts) -/

/-- A canonical forecast record (interface `Forecast`, src/types.ts).
Nullable meteorological fields are `Option ℝ`. -/
structure Forecast where
  model_id : String
  issue_time : ℤ
  valid_time : ℤ
  temperature_2m : Option ℝ := none
  dew_point_2m : Option ℝ := none
  wind_speed_10m : Option ℝ := none
  wind_direction_10m : Option ℝ := none
  wind_gusts_10m : Option ℝ := none
  pressure_msl : Option ℝ := none
  visibility : Option ℝ := none
  relative_humidity_2m : Option ℝ := none
  apparent_temperature : Option ℝ := none
  precipitation : Option ℝ := none
  snowfall : Option ℝ := none
  snow_depth : Option ℝ := none
  rain : Option ℝ := none
  showers : Option ℝ := none
  weather_code : Option ℝ := none
  cloud_cover : Option ℝ := none
  cloud_cover_low : Option ℝ := none
  cloud_cover_mid : Option ℝ := none
  cloud_cover_high : Option ℝ := none
  cape : Option ℝ := none
  precipitation_probability : Option ℝ := none
  cloud_base_agl : Option ℝ := none

/-- A ground-truth observation (interface `Observation`, src/types.ts). -/
structure Observation where
  obs_time : ℤ
  report_type : String := "METAR"
  temperature : Option ℝ := none
  dewpoint : Option ℝ := none
  wind_dir : Option ℝ := none
  wind_speed : Option ℝ := none
  wind_gust : Option ℝ := none
  visibility : Option ℝ := none
  pressure_msl : Option ℝ := none
  raw_text : String := ""
  precip_1h : Option ℝ := none
  ceiling_agl : Option ℝ := none
  weather_codes : List String := []
  era_snow_amt : Option ℝ := none
  era_precip_amt : Option ℝ := none
  era_rain_amt : Option ℝ := none
  era_wind_gust : Option ℝ := none

/-- The verification-record key.  In the source it is the template string
`` `${model_id}_${name}_${valid_time}_${leadTime.toFixed(1)}` `` (the store
`verification` has `keyPath: 'key'`); it is modelled as the tuple of the
interpolated components (model id, per-variable key name, valid time,
lead time). -/
abbrev VKey := String × String × ℤ × ℚ

/-- A verification record (interface `Verification`, src/types.ts).  The
always-`null` diagnostic fields (`mape`, `correlation`, `index_of_agreement`,
`skill_score`) of the source interface are omitted.  The source field
`variable` is called `variableName` here because `variable` is reserved in
Lean. -/
structure Verification where
  key : VKey
  model_id : String
  variableName : String
  valid_time : ℤ
  issue_time : ℤ
  lead_time_hours : ℚ
  forecast_value : ℝ
  observed_value : ℝ
  error : ℝ
  absolute_error : ℝ
  squared_error : ℝ
  percentage_error : Option ℝ
  bias : ℝ

/-! ## Forecast normalizer: tiered backfill (src/services/weatherService.ts,
`storeForecast`, lines 244-261) -/

/-- The issue time actually stored for a series entry, from the "Tiered
Backfill Logic" of `storeForecast`: entries whose valid time is at or before
`now` get their issue time rewritten to `validTime` minus 12 h / 36 h / 60 h
according to how old the entry is; future entries keep the cycle anchor
`issueTime`.  `hoursAgo` is the exact rational `(now - validTime) / 3600000`.
-/
def recordIssueTimeOf (now issueTime validTime : ℤ) : ℤ :=
  if validTime ≤ now then
    let hoursAgo : ℚ := ((now - validTime : ℤ) : ℚ) / 3600000
    if hoursAgo ≤ 24 then validTime - (12 * 3600 * 1000)
    else if hoursAgo ≤ 48 then validTime - (36 * 3600 * 1000)
    else validTime - (60 * 3600 * 1000)
  else issueTime

/-- Lead time in hours for a (valid time, issue time) pair of epoch-ms
timestamps, `(valid_time - issue_time) / (3600 * 1000)`. -/
def leadTimeMs (validTime issueTime : ℤ) : ℚ :=
  ((validTime - issueTime : ℤ) : ℚ) / (3600 * 1000)

/-- Lead time in hours of a stored forecast, as computed in `runVerification`
(line 477). -/
def leadTimeOf (f : Forecast) : ℚ :=
  leadTimeMs f.valid_time f.issue_time

theorem recordIssueTime_tiers (now issueTime validTime : ℤ)
    (h : validTime ≤ now) :
    (now - validTime ≤ 24 * 3600000 →
      recordIssueTimeOf now issueTime validTime = validTime - 12 * 3600000) ∧
    (24 * 3600000 < now - validTime → now - validTime ≤ 48 * 3600000 →
      recordIssueTimeOf now issueTime validTime = validTime - 36 * 3600000) ∧
    (48 * 3600000 < now - validTime →
      recordIssueTimeOf now issueTime validTime = validTime - 60 * 3600000) := by
  have h24 : (((now - validTime : ℤ) : ℚ) / 3600000 ≤ 24) ↔
      now - validTime ≤ 24 * 3600000 := by
    rw [div_le_iff₀ (by norm_num)]
    constructor
    · intro hq
      exact_mod_cast hq
    · intro hz
      exact_mod_cast hz
  have h48 : (((now - validTime : ℤ) : ℚ) / 3600000 ≤ 48) ↔
      now - validTime ≤ 48 * 3600000 := by
    rw [div_le_iff₀ (by norm_num)]
    constructor
    · intro hq
      exact_mod_cast hq
    · intro hz
      exact_mod_cast hz
  refine ⟨?_, ?_, ?_⟩
  · intro hle
    simp only [recordIssueTimeOf, if_pos h, h24.mpr hle, if_pos]
    ring
  · intro hgt hle
    have hn24 : ¬ (((now - validTime : ℤ) : ℚ) / 3600000 ≤ 24) := by
      intro hc
      exact absurd (h24.mp hc) (not_le.mpr hgt)
    simp only [recordIssueTimeOf, if_pos h, if_neg hn24, h48.mpr hle, if_pos]
    ring
  · intro hgt
    have hn24 : ¬ (((now - validTime : ℤ) : ℚ) / 3600000 ≤ 24) := by
      intro hc
      have := h24.mp hc
      omega
    have hn48 : ¬ (((now - validTime : ℤ) : ℚ) / 3600000 ≤ 48) := by
      intro hc
      have := h48.mp hc
      omega
    simp only [recordIssueTimeOf, if_pos h, if_neg hn24, if_neg hn48]
    ring

/-- Claim C10: in `storeForecast`, every series entry whose valid time is at
or before the fetch time `now` has its stored issue time rewritten away from
the cycle anchor to `valid_time` minus 12 h (entry at most 24 h old), minus
36 h (at most 48 h old), or minus 60 h (otherwise); consequently the derived
lead time is exactly 12, 36 or 60 hours and `valid_time ≥ issue_time`. -/
theorem backfill_issue_time_tiers (now issueTime validTime : ℤ)
    (h : validTime ≤ now) :
    recordIssueTimeOf now issueTime validTime ≤ validTime ∧
    (leadTimeMs validTime (recordIssueTimeOf now issueTime validTime) = 12 ∨
     leadTimeMs validTime (recordIssueTimeOf now issueTime validTime) = 36 ∨
     leadTimeMs validTime (recordIssueTimeOf now issueTime validTime) = 60) ∧
    (now - validTime ≤ 24 * 3600000 →
      recordIssueTimeOf now issueTime validTime = validTime - 12 * 3600000 ∧
      leadTimeMs validTime (recordIssueTimeOf now issueTime validTime) = 12) ∧
    (24 * 3600000 < now - validTime → now - validTime ≤ 48 * 3600000 →
      recordIssueTimeOf now issueTime validTime = validTime - 36 * 3600000 ∧
      leadTimeMs validTime (recordIssueTimeOf now issueTime validTime) = 36) ∧
    (48 * 3600000 < now - validTime →
      recordIssueTimeOf now issueTime validTime = validTime - 60 * 3600000 ∧
      leadTimeMs validTime (recordIssueTimeOf now issueTime validTime) = 60) := by
  obtain ⟨t12, t36, t60⟩ := recordIssueTime_tiers now issueTime validTime h
  have lead12 : leadTimeMs validTime (validTime - 12 * 3600000) = 12 := by
    simp only [leadTimeMs]
    push_cast
    ring_nf
  have lead36 : leadTimeMs validTime (validTime - 36 * 3600000) = 36 := by
    simp only [leadTimeMs]
    push_cast
    ring_nf
  have lead60 : leadTimeMs validTime (validTime - 60 * 3600000) = 60 := by
    simp only [leadTimeMs]
    push_cast
    ring_nf
  refine ⟨?_, ?_, ?_, ?_, ?_⟩
  · rcases le_or_lt (now - validTime) (24 * 3600000) with hc | hc
    · rw [t12 hc]; omega
    · rcases le_or_lt (now - validTime) (48 * 3600000) with hc2 | hc2
      · rw [t36 hc hc2]; omega
      · rw [t60 hc2]; omega
  · rcases le_or_lt (now - validTime) (24 * 3600000) with hc | hc
    · rw [t12 hc]; exact Or.inl lead12
    · rcases le_or_lt (now - validTime) (48 * 3600000) with hc2 | hc2
      · rw [t36 hc hc2]; exact Or.inr (Or.inl lead36)
      · rw [t60 hc2]; exact Or.inr (Or.inr lead60)
  · intro hc
    rw [t12 hc]
    exact ⟨rfl, lead12⟩
  · intro hc hc2
    rw [t36 hc hc2]
    exact ⟨rfl, lead36⟩
  · intro hc
    rw [t60 hc]
    exact ⟨rfl, lead60⟩

theorem backfill_issue_time_tiers_witness :
    (90 * 3600000 : ℤ) ≤ 100 * 3600000 ∧
    recordIssueTimeOf (100 * 3600000) (100 * 3600000) (90 * 3600000) ≤
      90 * 3600000 :=
  ⟨by norm_num,
   (backfill_issue_time_tiers (100 * 3600000) (100 * 3600000) (90 * 3600000)
     (by norm_num)).1⟩

/-! ## Verifier: wrap-aware wind-direction error
(src/services/weatherService.ts, `runVerification`, lines 592-599) -/

/-- The loop `while (diff <= -180) diff += 360`. -/
noncomputable def loopUp (d : ℝ) : ℝ :=
  if h : d ≤ -180 then loopUp (d + 360) else d
termination_by (⌊-d / 360⌋ + 1).toNat
decreasing_by
  have h1 : (0 : ℝ) ≤ -d / 360 := by
    have : (0 : ℝ) ≤ -d := by linarith
    positivity
  have h2 : 0 ≤ ⌊-d / 360⌋ := Int.floor_nonneg.mpr h1
  have h3 : -(d + 360) / 360 = -d / 360 - 1 := by ring
  rw [h3, Int.floor_sub_one]
  omega

/-- The loop `while (diff > 180) diff -= 360`. -/
noncomputable def loopDown (d : ℝ) : ℝ :=
  if h : 180 < d then loopDown (d - 360) else d
termination_by (⌊d / 360⌋ + 1).toNat
decreasing_by
  have h1 : (0 : ℝ) ≤ d / 360 := by
    have : (0 : ℝ) ≤ d := by linarith
    positivity
  have h2 : 0 ≤ ⌊d / 360⌋ := Int.floor_nonneg.mpr h1
  have h3 : (d - 360) / 360 = d / 360 - 1 := by ring
  rw [h3, Int.floor_sub_one]
  omega

/-- The wind-direction error normalization of `runVerification` lines 593-595:
both `while` loops applied in sequence to the raw difference. -/
noncomputable def wrapDiff (d : ℝ) : ℝ :=
  loopDown (loopUp d)

theorem loopUp_gt (d : ℝ) : -180 < loopUp d := by
  induction d using loopUp.induct with
  | case1 d h ih =>
    rw [loopUp]
    simpa [h] using ih
  | case2 d h =>
    rw [loopUp]
    simp only [h, dite_false]
    linarith [not_le.mp h]

theorem loopUp_congr (d : ℝ) : ∃ k : ℤ, loopUp d = d + 360 * k := by
  induction d using loopUp.induct with
  | case1 d h ih =>
    obtain ⟨k, hk⟩ := ih
    refine ⟨k + 1, ?_⟩
    rw [loopUp]
    simp only [h, dite_true]
    rw [hk]
    push_cast
    ring
  | case2 d h =>
    refine ⟨0, ?_⟩
    rw [loopUp]
    simp [h]

theorem loopDown_le (d : ℝ) : loopDown d ≤ 180 := by
  induction d using loopDown.induct with
  | case1 d h ih =>
    rw [loopDown]
    simpa [h] using ih
  | case2 d h =>
    rw [loopDown]
    simp only [h, dite_false]
    linarith [not_lt.mp h]

theorem loopDown_gt (d : ℝ) (hd : -180 < d) : -180 < loopDown d := by
  induction d using loopDown.induct with
  | case1 d h ih =>
    rw [loopDown]
    simp only [h, dite_true]
    exact ih (by linarith)
  | case2 d h =>
    rw [loopDown]
    simpa [h] using hd

theorem loopDown_congr (d : ℝ) : ∃ k : ℤ, loopDown d = d + 360 * k := by
  induction d using loopDown.induct with
  | case1 d h ih =>
    obtain ⟨k, hk⟩ := ih
    refine ⟨k - 1, ?_⟩
    rw [loopDown]
    simp only [h, dite_true]
    rw [hk]
    push_cast
    ring
  | case2 d h =>
    refine ⟨0, ?_⟩
    rw [loopDown]
    simp [h]

/-- The normalized difference lands in the half-open interval (−180, 180]. -/
theorem wrapDiff_mem (d : ℝ) : -180 < wrapDiff d ∧ wrapDiff d ≤ 180 :=
  ⟨loopDown_gt _ (loopUp_gt d), loopDown_le _⟩

/-- The normalization only shifts by whole turns. -/
theorem wrapDiff_congr (d : ℝ) : ∃ k : ℤ, wrapDiff d = d + 360 * k := by
  obtain ⟨k1, h1⟩ := loopUp_congr d
  obtain ⟨k2, h2⟩ := loopDown_congr (loopUp d)
  refine ⟨k1 + k2, ?_⟩
  rw [wrapDiff, h2, h1]
  push_cast
  ring

theorem wrapDiff_358 : wrapDiff 358 = -2 := by
  have hup : loopUp (358 : ℝ) = 358 := by
    rw [loopUp]
    norm_num
  have hdn2 : loopDown (-2 : ℝ) = -2 := by
    rw [loopDown]
    norm_num
  have hdn : loopDown (358 : ℝ) = -2 := by
    rw [loopDown]
    norm_num
    exact hdn2
  rw [wrapDiff, hup, hdn]

/-! ## Verifier (src/services/weatherService.ts, `runVerification`,
lines 461-615) -/

/-- Wind-vector error of `runVerification` lines 494-500: u/v decomposition
with u = −speed·sin(dir·π/180), v = −speed·cos(dir·π/180), and the Euclidean
distance between the forecast and observed vectors. -/
noncomputable def windVectorError (fSpd fDir oSpd oDir : ℝ) : ℝ :=
  let toRad : ℝ := Real.pi / 180
  let fU := -fSpd * Real.sin (fDir * toRad)
  let fV := -fSpd * Real.cos (fDir * toRad)
  let oU := -oSpd * Real.sin (oDir * toRad)
  let oV := -oSpd * Real.cos (oDir * toRad)
  Real.sqrt ((fU - oU) ^ 2 + (fV - oV) ^ 2)

/-- The fixed verification-variable catalogue `VERIFICATION_VARIABLES` of
src/constants.ts lines 72-88, as (name, obsKey) pairs. -/
def VERIFICATION_VARIABLES : List (String × String) :=
  [("temperature_2m", "temperature"),
   ("dew_point_2m", "dewpoint"),
   ("wind_speed_10m", "wind_speed"),
   ("wind_direction_10m", "wind_dir"),
   ("wind_gusts_10m", "wind_gust"),
   ("visibility", "visibility"),
   ("wind_vector", "null"),
   ("precipitation", "precip_1h"),
   ("precip_probability", "null"),
   ("rain_amount", "null"),
   ("snow_amount", "null"),
   ("freezing_rain_amount", "null"),
   ("rain_occurrence", "null"),
   ("snow_occurrence", "null"),
   ("freezing_rain_occurrence", "null")]

/-- Does `l` start with `sub`?  Helper for the substring tests below. -/
def listStartsWith : List Char → List Char → Bool
  | [], _ => true
  | _ :: _, [] => false
  | c :: cs, d :: ds => c == d && listStartsWith cs ds

/-- Does `l` contain `sub` as a contiguous segment? -/
def listHasSeg (sub : List Char) : List Char → Bool
  | [] => listStartsWith sub []
  | d :: ds => listStartsWith sub (d :: ds) || listHasSeg sub ds

/-- The JavaScript `name.includes(sub)` substring test. -/
def nameIncludes (s sub : String) : Bool :=
  listHasSeg sub.toList s.toList

/-- The JavaScript truthiness-guarded comparison `x && x > c` on a nullable
number: false when `x` is null (and when `x` is 0, where `0 > c` is false for
every threshold used here anyway). -/
def optGtProp (x : Option ℝ) (c : ℝ) : Prop :=
  match x with
  | some v => c < v
  | none => False

noncomputable instance (x : Option ℝ) (c : ℝ) : Decidable (optGtProp x c) :=
  match x with
  | some v => inferInstanceAs (Decidable (c < v))
  | none => inferInstanceAs (Decidable False)

/-- The guard `obs.precip_1h !== null && obs.precip_1h >= 0`. -/
def optNonnegProp (x : Option ℝ) : Prop :=
  match x with
  | some v => 0 ≤ v
  | none => False

noncomputable instance (x : Option ℝ) : Decidable (optNonnegProp x) :=
  match x with
  | some v => inferInstanceAs (Decidable (0 ≤ v))
  | none => inferInstanceAs (Decidable False)

/-- The lookup `forecast[name]` for the catalogue names (line 484).  JS
`undefined` (absent property) and `null` are both modelled as `none`.  Note
that `precip_probability`, `rain_amount`, `snow_amount`,
`freezing_rain_amount`, `wind_vector` and the occurrence names are not
properties of the `Forecast` interface, so the JS lookup yields `undefined`
for them. -/
def forecastField (f : Forecast) (name : String) : Option ℝ :=
  if name = "temperature_2m" then f.temperature_2m
  else if name = "dew_point_2m" then f.dew_point_2m
  else if name = "wind_speed_10m" then f.wind_speed_10m
  else if name = "wind_direction_10m" then f.wind_direction_10m
  else if name = "wind_gusts_10m" then f.wind_gusts_10m
  else if name = "visibility" then f.visibility
  else if name = "precipitation" then f.precipitation
  else none

/-- The lookup `obs[obsKey]` of the default scalar path (line 584). -/
def obsField (o : Observation) (obsKey : String) : Option ℝ :=
  if obsKey = "temperature" then o.temperature
  else if obsKey = "dewpoint" then o.dewpoint
  else if obsKey = "wind_speed" then o.wind_speed
  else if obsKey = "wind_dir" then o.wind_dir
  else if obsKey = "wind_gust" then o.wind_gust
  else if obsKey = "visibility" then o.visibility
  else if obsKey = "precip_1h" then o.precip_1h
  else none

/-- One iteration of the per-variable loop of `runVerification` (lines
481-610) for a single (observation, forecast) pair and one catalogue entry.
Returns the (zero or one) records pushed for that entry.

Modelling notes, beyond the file-level conventions:
* `Number.isFinite` guards are vacuous over `ℝ` and are dropped.
* `forecast.weather_code || 0` and `obs.era_rain_amt || 0` are `Option.getD 0`
  (the JS `||` also sends an actual 0 to 0, which `getD` preserves).
* `arr.includes(x)` is list membership.
* In the `precip_probability` branch the source reads
  `forecast['precip_probability']`, a property the `Forecast` interface does
  not have (its field is `precipitation_probability`), so at runtime that
  lookup is `undefined`: the strict `=== null` guard does not catch it and
  the branch emits records whose numeric fields are all NaN (which the
  aggregator later discards via its `Number.isFinite` check).  NaN has no
  counterpart in `ℝ`, so this embedding models the guard as also catching the
  absent field: the branch emits nothing.  Either way the branch never
  contributes a finite error value downstream. -/
noncomputable def verifyVar (obs : Observation) (forecast : Forecast)
    (leadTime : ℚ) (name obsKey : String) : List Verification :=
  let fcstVal0 := forecastField forecast name
  if name = "wind_vector" then
    match forecast.wind_speed_10m, forecast.wind_direction_10m,
        obs.wind_speed, obs.wind_dir with
    | some fSpd, some fDir, some oSpd, some oDir =>
        let vectorError := windVectorError fSpd fDir oSpd oDir
        [{ key := (forecast.model_id, "wind_vector", forecast.valid_time,
             leadTime),
           model_id := forecast.model_id, variableName := "wind_vector",
           valid_time := forecast.valid_time,
           issue_time := forecast.issue_time, lead_time_hours := leadTime,
           forecast_value := fSpd, observed_value := oSpd,
           error := vectorError, absolute_error := vectorError,
           squared_error := vectorError * vectorError,
           percentage_error := none, bias := vectorError }]
    | _, _, _, _ => []
  else if name = "precip_probability" then
    match fcstVal0 with
    | none => []
    | some fcstVal =>
        let p := fcstVal / 100
        let o : ℝ :=
          if obs.weather_codes ≠ [] ∨ optGtProp obs.era_precip_amt 0.1
          then 1 else 0
        let brier := (p - o) ^ 2
        [{ key := (forecast.model_id, "precip_prob", forecast.valid_time,
             leadTime),
           model_id := forecast.model_id,
           variableName := "precip_probability",
           valid_time := forecast.valid_time,
           issue_time := forecast.issue_time, lead_time_hours := leadTime,
           forecast_value := fcstVal, observed_value := o * 100,
           error := brier, absolute_error := brier, squared_error := brier,
           percentage_error := none, bias := p - o }]
  else if nameIncludes name "occurrence" then
    let code := forecast.weather_code.getD 0
    let po : Option (ℝ × ℝ) :=
      if name = "rain_occurrence" then
        if forecast.weather_code = none ∧ forecast.rain = none then none
        else
          let fHas : Prop := optGtProp forecast.rain 0.1 ∨
            (50 ≤ code ∧ code ≤ 69) ∨ (80 ≤ code ∧ code ≤ 99)
          some (if fHas then 1 else 0,
            if "RA" ∈ obs.weather_codes ∨ optGtProp obs.era_rain_amt 0.1
            then 1 else 0)
      else if name = "snow_occurrence" then
        if forecast.weather_code = none ∧ forecast.snowfall = none then none
        else
          let fHas : Prop := optGtProp forecast.snowfall 0.1 ∨
            (70 ≤ code ∧ code ≤ 79) ∨ (85 ≤ code ∧ code ≤ 86)
          some (if fHas then 1 else 0,
            if "SN" ∈ obs.weather_codes ∨ optGtProp obs.era_snow_amt 0.1
            then 1 else 0)
      else if name = "freezing_rain_occurrence" then
        if forecast.weather_code = none then none
        else
          let fHas : Prop := code = 56 ∨ code = 57 ∨ code = 66 ∨ code = 67
          some (if fHas then 1 else 0,
            if "FZRA" ∈ obs.weather_codes then 1 else 0)
      else some (0, 0)
    match po with
    | none => []
    | some (p, o) =>
        let err := (p - o) ^ 2
        [{ key := (forecast.model_id, name, forecast.valid_time, leadTime),
           model_id := forecast.model_id, variableName := name,
           valid_time := forecast.valid_time,
           issue_time := forecast.issue_time, lead_time_hours := leadTime,
           forecast_value := p, observed_value := o,
           error := err, absolute_error := err, squared_error := err,
           percentage_error := none, bias := p - o }]
  else
    let vals : Option ℝ × Option ℝ :=
      if name = "wind_gusts_10m" then
        (match obs.wind_gust, obs.era_wind_gust with
         | some g, _ => some g
         | none, some g => some g
         | none, none => none, fcstVal0)
      else if name = "precipitation" then
        ((if optNonnegProp obs.precip_1h then obs.precip_1h
          else if obs.era_precip_amt ≠ none then obs.era_precip_amt
          else none), fcstVal0)
      else if name = "snow_amount" then (obs.era_snow_amt, forecast.snowfall)
      else if name = "freezing_rain_amount" then
        (some (if "FZRA" ∈ obs.weather_codes then obs.era_rain_amt.getD 0
               else 0),
         some (if forecast.weather_code.getD 0 = 56 ∨
                  forecast.weather_code.getD 0 = 57 ∨
                  forecast.weather_code.getD 0 = 66 ∨
                  forecast.weather_code.getD 0 = 67
               then forecast.rain.getD 0 else 0))
      else (obsField obs obsKey, fcstVal0)
    match vals.1, vals.2 with
    | some obsVal, some fcstVal =>
        let error : ℝ :=
          if name = "wind_direction_10m" then wrapDiff (fcstVal - obsVal)
          else fcstVal - obsVal
        [{ key := (forecast.model_id, name, forecast.valid_time, leadTime),
           model_id := forecast.model_id, variableName := name,
           valid_time := forecast.valid_time,
           issue_time := forecast.issue_time, lead_time_hours := leadTime,
           forecast_value := fcstVal, observed_value := obsVal,
           error := error, absolute_error := |error|,
           squared_error := error * error,
           percentage_error :=
             if obsVal ≠ 0 then some (|error / obsVal| * 100) else none,
           bias := error }]
    | _, _ => []

/-- The verifier `runVerification` (lines 461-615) as a pure function from
the stored observations and forecasts to the list of records it pushes.  The
source first groups forecasts by `valid_time` and then iterates each
observation's group; grouping preserves per-time insertion order, so the
group of `obs` is exactly `allForecasts.filter (valid_time = obs.obs_time)`
in order. -/
noncomputable def runVerification (observations : List Observation)
    (allForecasts : List Forecast) : List Verification :=
  observations.flatMap fun obs =>
    (allForecasts.filter fun f => f.valid_time == obs.obs_time).flatMap
      fun forecast =>
        let leadTime := leadTimeOf forecast
        if leadTime < 0 then []
        else VERIFICATION_VARIABLES.flatMap fun v =>
          verifyVar obs forecast leadTime v.1 v.2

/-- Evaluation of the wind-direction catalogue entry: with both directions
present the default scalar path emits exactly one record whose error is the
wrap-normalized difference. -/
theorem verifyVar_wind_dir (obs : Observation) (f : Forecast) (lt : ℚ)
    (fd od : ℝ) (hf : f.wind_direction_10m = some fd)
    (ho : obs.wind_dir = some od) :
    verifyVar obs f lt "wind_direction_10m" "wind_dir" =
      [{ key := (f.model_id, "wind_direction_10m", f.valid_time, lt),
         model_id := f.model_id, variableName := "wind_direction_10m",
         valid_time := f.valid_time, issue_time := f.issue_time,
         lead_time_hours := lt, forecast_value := fd, observed_value := od,
         error := wrapDiff (fd - od),
         absolute_error := |wrapDiff (fd - od)|,
         squared_error := wrapDiff (fd - od) * wrapDiff (fd - od),
         percentage_error :=
           if od ≠ 0 then some (|wrapDiff (fd - od) / od| * 100) else none,
         bias := wrapDiff (fd - od) }] := by
  have hocc : nameIncludes "wind_direction_10m" "occurrence" = false := by
    decide
  simp only [verifyVar, forecastField, obsField, hocc, hf, ho]
  simp

/-- Claim C4: for every verified wind-direction pair with non-null forecast
and observed directions, the recorded error is the wrap-aware angular
difference (forecast − observed) normalized into (−180°, 180°] (it differs
from the raw difference by a whole number of turns); in particular
forecast = 359°, observed = 1° yields absolute error 2°, not 358°. -/
theorem wind_direction_error_wraps (obs : Observation) (f : Forecast)
    (lt : ℚ) (fd od : ℝ) (hf : f.wind_direction_10m = some fd)
    (ho : obs.wind_dir = some od) :
    (∃ rec, verifyVar obs f lt "wind_direction_10m" "wind_dir" = [rec] ∧
      rec.error = wrapDiff (fd - od) ∧
      -180 < rec.error ∧ rec.error ≤ 180 ∧
      (∃ k : ℤ, rec.error = (fd - od) + 360 * k) ∧
      rec.absolute_error = |rec.error| ∧ rec.bias = rec.error) ∧
    |wrapDiff ((359 : ℝ) - 1)| = 2 := by
  refine ⟨⟨_, verifyVar_wind_dir obs f lt fd od hf ho, rfl, ?_, ?_, ?_, rfl,
    rfl⟩, ?_⟩
  · exact (wrapDiff_mem (fd - od)).1
  · exact (wrapDiff_mem (fd - od)).2
  · exact wrapDiff_congr (fd - od)
  · rw [show ((359 : ℝ) - 1) = 358 by norm_num, wrapDiff_358]
    norm_num

theorem wind_direction_error_wraps_witness :
    ({ model_id := "gfs", issue_time := 0, valid_time := 0,
       wind_direction_10m := some 359 } : Forecast).wind_direction_10m =
        some 359 ∧
    ({ obs_time := 0, wind_dir := some 1 } : Observation).wind_dir =
        some 1 ∧
    ((∃ rec, verifyVar { obs_time := 0, wind_dir := some 1 }
        { model_id := "gfs", issue_time := 0, valid_time := 0,
          wind_direction_10m := some 359 } 6 "wind_direction_10m"
        "wind_dir" = [rec] ∧
      rec.error = wrapDiff ((359 : ℝ) - 1) ∧
      -180 < rec.error ∧ rec.error ≤ 180 ∧
      (∃ k : ℤ, rec.error = ((359 : ℝ) - 1) + 360 * k) ∧
      rec.absolute_error = |rec.error| ∧ rec.bias = rec.error) ∧
      |wrapDiff ((359 : ℝ) - 1)| = 2) :=
  ⟨rfl, rfl, wind_direction_error_wraps _ _ 6 359 1 rfl rfl⟩

/-- Evaluation of the `wind_vector` catalogue entry with all four wind
fields present. -/
theorem verifyVar_wind_vector (obs : Observation) (f : Forecast) (lt : ℚ)
    (fs fd os od : ℝ) (h1 : f.wind_speed_10m = some fs)
    (h2 : f.wind_direction_10m = some fd) (h3 : obs.wind_speed = some os)
    (h4 : obs.wind_dir = some od) :
    verifyVar obs f lt "wind_vector" "null" =
      [{ key := (f.model_id, "wind_vector", f.valid_time, lt),
         model_id := f.model_id, variableName := "wind_vector",
         valid_time := f.valid_time, issue_time := f.issue_time,
         lead_time_hours := lt,
         forecast_value := fs, observed_value := os,
         error := windVectorError fs fd os od,
         absolute_error := windVectorError fs fd os od,
         squared_error := windVectorError fs fd os od *
           windVectorError fs fd os od,
         percentage_error := none,
         bias := windVectorError fs fd os od }] := by
  simp only [verifyVar, h1, h2, h3, h4]
  simp


/-- Helper: a record emitted by `verifyVar` for a catalogue entry of a pair
with matching valid time and non-negative lead time is in the output of
`runVerification` on those singleton stores. -/
theorem mem_runVerification_single (obs : Observation) (f : Forecast)
    (hmatch : f.valid_time = obs.obs_time) (hlt : ¬ leadTimeOf f < 0)
    (v : String × String) (hv : v ∈ VERIFICATION_VARIABLES)
    (rec : Verification)
    (hrec : rec ∈ verifyVar obs f (leadTimeOf f) v.1 v.2) :
    rec ∈ runVerification [obs] [f] := by
  simp only [runVerification, List.flatMap_cons, List.flatMap_nil,
    List.filter_cons, List.filter_nil, beq_iff_eq, hmatch, if_true,
    List.append_nil, if_neg hlt, List.mem_flatMap]
  exact ⟨v, hv, hrec⟩

/-- The concrete vector-error computation: forecast (speed 10, dir 0°)
against observed (speed 10, dir 180°) gives Euclidean distance 20. -/
theorem windVectorError_20 : windVectorError 10 0 10 180 = 20 := by
  simp only [windVectorError]
  have e0 : (0 : ℝ) * (Real.pi / 180) = 0 := by ring
  have e180 : (180 : ℝ) * (Real.pi / 180) = Real.pi := by field_simp
  rw [e0, e180, Real.sin_zero, Real.cos_zero, Real.sin_pi, Real.cos_pi]
  norm_num
  rw [show (400 : ℝ) = 20 ^ 2 by norm_num]
  exact Real.sqrt_sq (by norm_num)

/-- Claim C9: for every (Observation, Forecast) pair sharing a valid time
with non-null wind speeds and directions on both sides, the verifier emits a
wind-vector record whose error is the Euclidean distance between the
(u, v) = (−speed·sin dir, −speed·cos dir) decompositions, used uniformly as
error, absolute error and bias, with its square as the squared error; in
particular forecast (10, 0°) against observed (10, 180°) gives 20. -/
theorem wind_vector_verification (obs : Observation) (f : Forecast)
    (fs fd os od : ℝ) (hmatch : f.valid_time = obs.obs_time)
    (hlt : 0 ≤ leadTimeOf f)
    (h1 : f.wind_speed_10m = some fs) (h2 : f.wind_direction_10m = some fd)
    (h3 : obs.wind_speed = some os) (h4 : obs.wind_dir = some od) :
    (∃ rec ∈ runVerification [obs] [f],
       rec.variableName = "wind_vector" ∧
       rec.error = windVectorError fs fd os od ∧
       rec.absolute_error = rec.error ∧ rec.bias = rec.error ∧
       rec.squared_error = rec.error * rec.error) ∧
    windVectorError 10 0 10 180 = 20 := by
  have heval := verifyVar_wind_vector obs f (leadTimeOf f) fs fd os od
    h1 h2 h3 h4
  refine ⟨⟨_, mem_runVerification_single obs f hmatch (not_lt.mpr hlt)
    ("wind_vector", "null") (by decide) _
    (heval ▸ List.mem_singleton_self _), rfl, rfl, rfl, rfl, rfl⟩,
    windVectorError_20⟩

theorem wind_vector_verification_witness :
    ({ model_id := "gfs", issue_time := 0, valid_time := 0,
       wind_speed_10m := some 10, wind_direction_10m := some 0 } :
         Forecast).valid_time =
      ({ obs_time := 0, wind_speed := some 10, wind_dir := some 180 } :
         Observation).obs_time ∧
    0 ≤ leadTimeOf
        ({ model_id := "gfs", issue_time := 0, valid_time := 0,
           wind_speed_10m := some 10, wind_direction_10m := some 0 } :
          Forecast) ∧
    ((∃ rec ∈ runVerification
        [({ obs_time := 0, wind_speed := some 10, wind_dir := some 180 } :
           Observation)]
        [({ model_id := "gfs", issue_time := 0, valid_time := 0,
            wind_speed_10m := some 10, wind_direction_10m := some 0 } :
           Forecast)],
       rec.variableName = "wind_vector" ∧
       rec.error = windVectorError 10 0 10 180 ∧
       rec.absolute_error = rec.error ∧ rec.bias = rec.error ∧
       rec.squared_error = rec.error * rec.error) ∧
     windVectorError 10 0 10 180 = 20) :=
  ⟨rfl, by norm_num [leadTimeOf, leadTimeMs],
   wind_vector_verification _ _ 10 0 10 180 rfl
     (by norm_num [leadTimeOf, leadTimeMs]) rfl rfl rfl rfl⟩

/-- The record shape pushed by the occurrence family (lines 551-559):
forecast flag `p`, observed flag `o`, error `(p − o)²` used for error,
absolute and squared error alike, bias `p − o`. -/
def mkOccRecord (f : Forecast) (name : String) (lt : ℚ) (p o : ℝ) :
    Verification :=
  { key := (f.model_id, name, f.valid_time, lt),
    model_id := f.model_id, variableName := name,
    valid_time := f.valid_time, issue_time := f.issue_time,
    lead_time_hours := lt, forecast_value := p, observed_value := o,
    error := (p - o) ^ 2, absolute_error := (p - o) ^ 2,
    squared_error := (p - o) ^ 2, percentage_error := none, bias := p - o }

/-- Predicted rain flag (line 537): sub-amount over 0.1 mm or a rainy
weather-code range. -/
noncomputable def rainPredFlag (f : Forecast) : ℝ :=
  if optGtProp f.rain 0.1 ∨
     (50 ≤ f.weather_code.getD 0 ∧ f.weather_code.getD 0 ≤ 69) ∨
     (80 ≤ f.weather_code.getD 0 ∧ f.weather_code.getD 0 ≤ 99)
  then 1 else 0

/-- Observed rain flag (line 539): station RA code or reanalysis rain amount
over 0.1 mm. -/
noncomputable def rainObsFlag (obs : Observation) : ℝ :=
  if "RA" ∈ obs.weather_codes ∨ optGtProp obs.era_rain_amt 0.1
  then 1 else 0

/-- Predicted snow flag (line 542). -/
noncomputable def snowPredFlag (f : Forecast) : ℝ :=
  if optGtProp f.snowfall 0.1 ∨
     (70 ≤ f.weather_code.getD 0 ∧ f.weather_code.getD 0 ≤ 79) ∨
     (85 ≤ f.weather_code.getD 0 ∧ f.weather_code.getD 0 ≤ 86)
  then 1 else 0

/-- Observed snow flag (line 544): station SN code or reanalysis snow amount
over 0.1. -/
noncomputable def snowObsFlag (obs : Observation) : ℝ :=
  if "SN" ∈ obs.weather_codes ∨ optGtProp obs.era_snow_amt 0.1
  then 1 else 0

/-- Predicted freezing-rain flag (line 547): weather code in
{56, 57, 66, 67}. -/
noncomputable def fzraPredFlag (f : Forecast) : ℝ :=
  if f.weather_code.getD 0 = 56 ∨ f.weather_code.getD 0 = 57 ∨
     f.weather_code.getD 0 = 66 ∨ f.weather_code.getD 0 = 67
  then 1 else 0

/-- Observed freezing-rain flag (line 549): station FZRA code only. -/
noncomputable def fzraObsFlag (obs : Observation) : ℝ :=
  if "FZRA" ∈ obs.weather_codes then 1 else 0

theorem verifyVar_rain_occ (obs : Observation) (f : Forecast) (lt : ℚ)
    (h : ¬ (f.weather_code = none ∧ f.rain = none)) :
    verifyVar obs f lt "rain_occurrence" "null" =
      [mkOccRecord f "rain_occurrence" lt (rainPredFlag f)
        (rainObsFlag obs)] := by
  have hocc : nameIncludes "rain_occurrence" "occurrence" = true := by decide
  simp only [verifyVar, hocc, if_neg h]
  simp [mkOccRecord, rainPredFlag, rainObsFlag]

theorem verifyVar_snow_occ (obs : Observation) (f : Forecast) (lt : ℚ)
    (h : ¬ (f.weather_code = none ∧ f.snowfall = none)) :
    verifyVar obs f lt "snow_occurrence" "null" =
      [mkOccRecord f "snow_occurrence" lt (snowPredFlag f)
        (snowObsFlag obs)] := by
  have hocc : nameIncludes "snow_occurrence" "occurrence" = true := by decide
  simp only [verifyVar, hocc, if_neg h]
  simp [mkOccRecord, snowPredFlag, snowObsFlag]

theorem verifyVar_fzra_occ (obs : Observation) (f : Forecast) (lt : ℚ)
    (h : f.weather_code ≠ none) :
    verifyVar obs f lt "freezing_rain_occurrence" "null" =
      [mkOccRecord f "freezing_rain_occurrence" lt (fzraPredFlag f)
        (fzraObsFlag obs)] := by
  have hocc : nameIncludes "freezing_rain_occurrence" "occurrence" = true :=
    by decide
  simp only [verifyVar, hocc, if_neg h]
  simp [mkOccRecord, fzraPredFlag, fzraObsFlag]

/-- An if-then-else flag is binary. -/
theorem ite01 (P : Prop) [Decidable P] :
    (if P then (1 : ℝ) else 0) = 0 ∨ (if P then (1 : ℝ) else 0) = 1 := by
  split
  · exact Or.inr rfl
  · exact Or.inl rfl

/-- Claim C2 (counterexample): an observation with an empty station
phenomenon-code set but a reanalysis rain amount of 5 mm gets observed rain
flag 1 (and error 1 against a no-rain forecast), so the observed flag is not
derived strictly from the station phenomenon codes. -/
theorem rain_occurrence_uses_reanalysis :
    (verifyVar
        ({ obs_time := 0, weather_codes := [],
           era_rain_amt := some 5 } : Observation)
        ({ model_id := "gfs", issue_time := 0, valid_time := 0,
           weather_code := some 0, rain := some 0 } : Forecast)
        6 "rain_occurrence" "null").map
      (fun r => (r.forecast_value, r.observed_value, r.error)) =
        [(0, 1, 1)] ∧
    ({ obs_time := 0, weather_codes := [],
       era_rain_amt := some 5 } : Observation).weather_codes = [] := by
  constructor
  · rw [verifyVar_rain_occ _ _ _ (by simp)]
    simp only [List.map_cons, List.map_nil, mkOccRecord, rainPredFlag,
      rainObsFlag, optGtProp]
    norm_num
  · rfl

/-- Claim C2 (amended): for the rain and snow occurrence variables the
observed flag is 1 iff the relevant station phenomenon code is present OR
the corresponding reanalysis amount exceeds 0.1 (not strictly from the
code set); the freezing-rain observed flag uses the station codes only; in
each case the error is the squared difference of binary flags, used for
error, absolute and squared error alike.  The precipitation-probability
branch reads `forecast['precip_probability']`, a property the `Forecast`
interface does not have, and so never contributes a finite-valued record
(modelled: it emits nothing). -/
theorem occurrence_outcomes_hybrid (obs : Observation) (f : Forecast)
    (lt : ℚ) :
    (¬ (f.weather_code = none ∧ f.rain = none) →
      ∃ rec, verifyVar obs f lt "rain_occurrence" "null" = [rec] ∧
        rec.observed_value =
          (if "RA" ∈ obs.weather_codes ∨ optGtProp obs.era_rain_amt 0.1
           then 1 else 0) ∧
        (rec.forecast_value = 0 ∨ rec.forecast_value = 1) ∧
        rec.error = (rec.forecast_value - rec.observed_value) ^ 2 ∧
        rec.absolute_error = rec.error ∧ rec.squared_error = rec.error ∧
        rec.bias = rec.forecast_value - rec.observed_value) ∧
    (¬ (f.weather_code = none ∧ f.snowfall = none) →
      ∃ rec, verifyVar obs f lt "snow_occurrence" "null" = [rec] ∧
        rec.observed_value =
          (if "SN" ∈ obs.weather_codes ∨ optGtProp obs.era_snow_amt 0.1
           then 1 else 0) ∧
        (rec.forecast_value = 0 ∨ rec.forecast_value = 1) ∧
        rec.error = (rec.forecast_value - rec.observed_value) ^ 2 ∧
        rec.absolute_error = rec.error ∧ rec.squared_error = rec.error ∧
        rec.bias = rec.forecast_value - rec.observed_value) ∧
    (f.weather_code ≠ none →
      ∃ rec, verifyVar obs f lt "freezing_rain_occurrence" "null" = [rec] ∧
        rec.observed_value =
          (if "FZRA" ∈ obs.weather_codes then 1 else 0) ∧
        (rec.forecast_value = 0 ∨ rec.forecast_value = 1) ∧
        rec.error = (rec.forecast_value - rec.observed_value) ^ 2 ∧
        rec.absolute_error = rec.error ∧ rec.squared_error = rec.error ∧
        rec.bias = rec.forecast_value - rec.observed_value) ∧
    verifyVar obs f lt "precip_probability" "null" = [] := by
  refine ⟨?_, ?_, ?_, ?_⟩
  · intro h
    refine ⟨_, verifyVar_rain_occ obs f lt h, rfl, ?_, rfl, rfl, rfl, rfl⟩
    show rainPredFlag f = 0 ∨ rainPredFlag f = 1
    unfold rainPredFlag
    exact ite01 _
  · intro h
    refine ⟨_, verifyVar_snow_occ obs f lt h, rfl, ?_, rfl, rfl, rfl, rfl⟩
    show snowPredFlag f = 0 ∨ snowPredFlag f = 1
    unfold snowPredFlag
    exact ite01 _
  · intro h
    refine ⟨_, verifyVar_fzra_occ obs f lt h, rfl, ?_, rfl, rfl, rfl, rfl⟩
    show fzraPredFlag f = 0 ∨ fzraPredFlag f = 1
    unfold fzraPredFlag
    exact ite01 _
  · simp only [verifyVar, forecastField]
    simp

theorem occurrence_outcomes_hybrid_witness :
    ¬ (({ model_id := "gfs", issue_time := 0, valid_time := 0,
          weather_code := some 61 } : Forecast).weather_code = none ∧
       ({ model_id := "gfs", issue_time := 0, valid_time := 0,
          weather_code := some 61 } : Forecast).rain = none) ∧
    (∃ rec, verifyVar
        ({ obs_time := 0, weather_codes := ["RA"] } : Observation)
        ({ model_id := "gfs", issue_time := 0, valid_time := 0,
           weather_code := some 61 } : Forecast)
        6 "rain_occurrence" "null" = [rec] ∧
      rec.observed_value =
        (if "RA" ∈ ({ obs_time := 0, weather_codes := ["RA"] } :
             Observation).weather_codes ∨
            optGtProp ({ obs_time := 0, weather_codes := ["RA"] } :
             Observation).era_rain_amt 0.1
         then 1 else 0) ∧
      (rec.forecast_value = 0 ∨ rec.forecast_value = 1) ∧
      rec.error = (rec.forecast_value - rec.observed_value) ^ 2 ∧
      rec.absolute_error = rec.error ∧ rec.squared_error = rec.error ∧
      rec.bias = rec.forecast_value - rec.observed_value) :=
  ⟨by simp,
   (occurrence_outcomes_hybrid
     ({ obs_time := 0, weather_codes := ["RA"] } : Observation)
     ({ model_id := "gfs", issue_time := 0, valid_time := 0,
        weather_code := some 61 } : Forecast) 6).1 (by simp)⟩

/-- One `store.put(item)` of the IndexedDB `verification` store
(`keyPath: 'key'`, src/services/db.ts line 49): overwrite at the record's
key. -/
def putVerification (m : VKey → Option Verification) (r : Verification) :
    VKey → Option Verification :=
  fun k => if k = r.key then some r else m k

/-- `db.bulkPut('verification', data)` (src/services/db.ts lines 113-121):
puts every record in order into the keyed store. -/
def bulkPutVerifications (m : VKey → Option Verification)
    (l : List Verification) : VKey → Option Verification :=
  l.foldl putVerification m

theorem bulkPut_lookup (l : List Verification)
    (m : VKey → Option Verification) (k : VKey) :
    bulkPutVerifications m l k =
      match l.reverse.find? (fun r => r.key == k) with
      | some r => some r
      | none => m k := by
  induction l generalizing m with
  | nil => rfl
  | cons r t ih =>
    simp only [bulkPutVerifications, List.foldl_cons] at *
    rw [ih]
    simp only [List.reverse_cons, List.find?_append]
    cases hf : t.reverse.find? (fun r => r.key == k) with
    | some x => simp
    | none =>
      simp only [Option.orElse_none, Option.none_orElse, List.find?_cons,
        List.find?_nil]
      by_cases hk : r.key = k
      · simp [hk, putVerification]
      · have : (r.key == k) = false := beq_eq_false_iff_ne.mpr hk
        simp [this, putVerification, hk]
        intro hkk
        exact absurd hkk.symm hk

/-- The per-variable key-name component: the source writes `precip_prob` in
the key for the `precip_probability` variable and the variable name itself
everywhere else. -/
def keyNameOf (v : String) : String :=
  if v = "precip_probability" then "precip_prob" else v

theorem verifyVar_key (obs : Observation) (f : Forecast) (lt : ℚ)
    (name obsKey : String) (rec : Verification)
    (h : rec ∈ verifyVar obs f lt name obsKey) :
    rec.key = (rec.model_id, keyNameOf rec.variableName, rec.valid_time,
      rec.lead_time_hours) ∧
    rec.model_id = f.model_id ∧ rec.valid_time = f.valid_time ∧
    rec.lead_time_hours = lt := by
  simp only [verifyVar] at h
  repeat' split at h
  all_goals
    first
    | exact absurd h (List.not_mem_nil _)
    | (rw [List.mem_singleton] at h
       subst h
       refine ⟨?_, rfl, rfl, rfl⟩
       simp [keyNameOf, *])

/-- Claim C8: the verifier is idempotent — for a fixed observation and
forecast store the records it computes are a deterministic list, each
record's key is a function of (model, variable, valid time, lead time), and
bulk-putting that list into the keyed `verification` store twice leaves the
same store as putting it once (same-key puts overwrite). -/
theorem verifier_idempotent (observations : List Observation)
    (forecasts : List Forecast) (m : VKey → Option Verification) :
    bulkPutVerifications
        (bulkPutVerifications m (runVerification observations forecasts))
        (runVerification observations forecasts) =
      bulkPutVerifications m (runVerification observations forecasts) ∧
    ∀ rec ∈ runVerification observations forecasts,
      rec.key = (rec.model_id, keyNameOf rec.variableName, rec.valid_time,
        rec.lead_time_hours) := by
  constructor
  · funext k
    rw [bulkPut_lookup, bulkPut_lookup]
    cases hf : (runVerification observations forecasts).reverse.find?
        (fun r => r.key == k) <;> simp [hf]
  · intro rec hrec
    simp only [runVerification, List.mem_flatMap] at hrec
    obtain ⟨obs, -, f, -, hrec⟩ := hrec
    split at hrec
    · exact absurd hrec (List.not_mem_nil _)
    · rw [List.mem_flatMap] at hrec
      obtain ⟨v, -, hrec⟩ := hrec
      exact (verifyVar_key obs f (leadTimeOf f) v.1 v.2 rec hrec).1

/-! ## Lead-time buckets (src/constants.ts lines 112-119) and the
aggregator's membership test -/

/-- `LEAD_TIME_BUCKETS`: bucket name with [minHours, maxHours). -/
def LEAD_TIME_BUCKETS : List (String × ℚ × ℚ) :=
  [("24h", -24, 24), ("48h", 47, 49), ("72h", 71, 73),
   ("5day", 119, 121), ("7day", 167, 169), ("10day", 239, 241)]

/-- `ALL_BUCKETS = Object.keys(LEAD_TIME_BUCKETS)` (line 130). -/
def ALL_BUCKETS : List String := LEAD_TIME_BUCKETS.map Prod.fst

/-- `LEAD_TIME_BUCKETS[bucketName]`; the source's record is total over the
`BucketName` union type, the default is never consulted. -/
def bucketRange (bucketName : String) : ℚ × ℚ :=
  (LEAD_TIME_BUCKETS.lookup bucketName).getD (0, 0)

/-- The aggregator's half-open bucket membership test `minHour ≤ lt <
maxHour`: `lead_time_hours >= ? AND lead_time_hours < ?` in
statsService.ts (lines 33, 148, 389) and
`IDBKeyRange.bound(minHours, maxHours, false, true)` in weatherService.ts
(line 620). -/
def inBucket (bucketName : String) (lt : ℚ) : Prop :=
  (bucketRange bucketName).1 ≤ lt ∧ lt < (bucketRange bucketName).2

instance (bucketName : String) (lt : ℚ) : Decidable (inBucket bucketName lt) :=
  inferInstanceAs (Decidable
    ((bucketRange bucketName).1 ≤ lt ∧ lt < (bucketRange bucketName).2))

/-- The buckets whose half-open range contains a given lead time. -/
def bucketsContaining (lt : ℚ) : List String :=
  ALL_BUCKETS.filter fun b => decide (inBucket b lt)

set_option maxHeartbeats 2000000 in
/-- Claim C5 (amended): the configured buckets are pairwise disjoint under
the half-open membership test — every lead time lies in at most one bucket
(but not exactly one: the ranges leave gaps, see the counterexample). -/
theorem lead_time_buckets_disjoint (lt : ℚ) :
    (bucketsContaining lt).length ≤ 1 := by
  have e1 : bucketRange "24h" = (-24, 24) := by decide
  have e2 : bucketRange "48h" = (47, 49) := by decide
  have e3 : bucketRange "72h" = (71, 73) := by decide
  have e4 : bucketRange "5day" = (119, 121) := by decide
  have e5 : bucketRange "7day" = (167, 169) := by decide
  have e6 : bucketRange "10day" = (239, 241) := by decide
  have h1 : inBucket "24h" lt ↔ (-24 ≤ lt ∧ lt < 24) := by rw [inBucket, e1]
  have h2 : inBucket "48h" lt ↔ (47 ≤ lt ∧ lt < 49) := by rw [inBucket, e2]
  have h3 : inBucket "72h" lt ↔ (71 ≤ lt ∧ lt < 73) := by rw [inBucket, e3]
  have h4 : inBucket "5day" lt ↔ (119 ≤ lt ∧ lt < 121) := by
    rw [inBucket, e4]
  have h5 : inBucket "7day" lt ↔ (167 ≤ lt ∧ lt < 169) := by
    rw [inBucket, e5]
  have h6 : inBucket "10day" lt ↔ (239 ≤ lt ∧ lt < 241) := by
    rw [inBucket, e6]
  simp only [bucketsContaining, ALL_BUCKETS, LEAD_TIME_BUCKETS,
    List.map_cons, List.map_nil, List.filter_cons, List.filter_nil,
    decide_eq_true_eq, h1, h2, h3, h4, h5, h6]
  split_ifs <;> simp_all <;> linarith

/-- Evaluation of the temperature catalogue entry: the default scalar path
with both values present. -/
theorem verifyVar_temperature (obs : Observation) (f : Forecast) (lt : ℚ)
    (tv ov : ℝ) (hf : f.temperature_2m = some tv)
    (ho : obs.temperature = some ov) :
    verifyVar obs f lt "temperature_2m" "temperature" =
      [{ key := (f.model_id, "temperature_2m", f.valid_time, lt),
         model_id := f.model_id, variableName := "temperature_2m",
         valid_time := f.valid_time, issue_time := f.issue_time,
         lead_time_hours := lt, forecast_value := tv, observed_value := ov,
         error := tv - ov, absolute_error := |tv - ov|,
         squared_error := (tv - ov) * (tv - ov),
         percentage_error :=
           if ov ≠ 0 then some (|(tv - ov) / ov| * 100) else none,
         bias := tv - ov }] := by
  have hocc : nameIncludes "temperature_2m" "occurrence" = false := by decide
  simp only [verifyVar, forecastField, obsField, hocc, hf, ho]
  simp

/-- A concrete observation at epoch hour 30 (30 * 3600000 ms). -/
def gapObs : Observation := { obs_time := 108000000, temperature := some 20 }

/-- A concrete forecast issued at epoch 0 and valid 30 hours later. -/
def gapFcst : Forecast :=
  { model_id := "gfs", issue_time := 0, valid_time := 108000000,
    temperature_2m := some 22 }

/-- Claim C5 (counterexample): a verification record with lead time 30 hours
is reachable (forecast issued 30 h before its valid hour, observed hour
matching), and 30 falls in none of the configured buckets — so lead times do
not always fall in exactly one bucket. -/
theorem lead_time_gap_record :
    (∃ rec ∈ runVerification [gapObs] [gapFcst],
      rec.lead_time_hours = 30) ∧
    bucketsContaining 30 = [] := by
  constructor
  · have hlt : ¬ leadTimeOf gapFcst < 0 := by
      norm_num [leadTimeOf, leadTimeMs, gapFcst]
    have heval := verifyVar_temperature gapObs gapFcst (leadTimeOf gapFcst)
      22 20 rfl rfl
    refine ⟨_, mem_runVerification_single _ _ rfl hlt
      ("temperature_2m", "temperature") (by decide) _
      (heval ▸ List.mem_singleton_self _), ?_⟩
    norm_num [leadTimeOf, leadTimeMs, gapFcst]
  · decide

/-! ## Bucketed aggregator (src/services/weatherService.ts,
`calculateModelVariableStats`, lines 618-663) -/

/-- Per-(model, variable) summary (interface `ModelVariableStats`,
src/types.ts).  The always-`null` fields `mape`, `correlation`,
`index_of_agreement`, `skill_score` are omitted; `variable` is
`variableName` as in `Verification`. -/
structure ModelVariableStats where
  model_id : String
  variableName : String
  n : ℕ
  mae : ℝ
  mse : ℝ
  rmse : ℝ
  bias : ℝ
  std_error : Option ℝ

/-- The per-group accumulator object of lines 631-642. -/
structure SAcc where
  sum_ae : ℝ
  sum_se : ℝ
  sum_bias : ℝ
  values_ae : List ℝ
  count : ℕ

/-- A freshly initialized accumulator (line 632). -/
def emptySAcc : SAcc := ⟨0, 0, 0, [], 0⟩

/-- Lines 638-642: add one record to a group accumulator. -/
def addRec (a : SAcc) (rec : Verification) : SAcc :=
  { sum_ae := a.sum_ae + rec.absolute_error,
    sum_se := a.sum_se + rec.squared_error,
    sum_bias := a.sum_bias + rec.bias,
    values_ae := a.values_ae ++ [rec.absolute_error],
    count := a.count + 1 }

/-- The `stats[key]` object map, as an insertion-ordered association list:
a new `${model}::${variable}` key is appended, an existing one updated in
place. -/
def groupUpsert : List ((String × String) × SAcc) → String × String →
    Verification → List ((String × String) × SAcc)
  | [], k, rec => [(k, addRec emptySAcc rec)]
  | (k0, a) :: t, k, rec =>
      if k0 = k then (k0, addRec a rec) :: t
      else (k0, a) :: groupUpsert t k rec

/-- The outlier-rejection test of line 628: a record is skipped when its
variable is not `pressure_msl`, contains neither `occurrence` nor
`probability`, and its absolute error exceeds 2000.  (The preceding
`Number.isFinite(rec.absolute_error)` guard is vacuous over `ℝ`.) -/
def droppedByCeiling (rec : Verification) : Prop :=
  rec.variableName ≠ "pressure_msl" ∧
  nameIncludes rec.variableName "occurrence" = false ∧
  nameIncludes rec.variableName "probability" = false ∧
  rec.absolute_error > 2000

noncomputable instance (rec : Verification) :
    Decidable (droppedByCeiling rec) :=
  inferInstanceAs (Decidable (_ ∧ _ ∧ _ ∧ _))

/-- The grouping loop of lines 626-643. -/
noncomputable def statsFold (records : List Verification) :
    List ((String × String) × SAcc) :=
  records.foldl
    (fun stats rec =>
      if droppedByCeiling rec then stats
      else groupUpsert stats (rec.model_id, rec.variableName) rec) []

/-- Lines 645-662: turn one group into a summary row.  Groups always have
`count ≥ 1`, so the `n === 0` branch (modelled as `none`) is dead, and over
`ℝ` the `Number.isFinite(stdError)` test is always true. -/
noncomputable def finalizeStat (k : String × String) (s : SAcc) :
    Option ModelVariableStats :=
  if s.count = 0 then none
  else
    let mae := s.sum_ae / s.count
    let mse := s.sum_se / s.count
    let sumSqDiff := (s.values_ae.map (fun v => (v - mae) ^ 2)).sum
    let stdDev := Real.sqrt (max 0 (sumSqDiff / s.count))
    some { model_id := k.1, variableName := k.2, n := s.count, mae := mae,
           mse := mse, rmse := Real.sqrt (max 0 mse),
           bias := s.sum_bias / s.count,
           std_error := some (stdDev / Real.sqrt s.count) }

/-- `calculateModelVariableStats` (lines 618-663): fetch the bucket's
records through the half-open `by_lead_time` range, group with outlier
rejection, and summarize.  The `records.length === 0 → null` early return is
modelled by the empty output list. -/
noncomputable def calculateModelVariableStats (bucketName : String)
    (records : List Verification) : List ModelVariableStats :=
  let bucketRecs :=
    records.filter fun r => decide (inBucket bucketName r.lead_time_hours)
  (statsFold bucketRecs).filterMap fun g => finalizeStat g.1 g.2

/-- A visibility record whose absolute error exceeds the 2000 ceiling. -/
def visRec : Verification :=
  { key := ("gfs", "visibility", 0, 0), model_id := "gfs",
    variableName := "visibility", valid_time := 0, issue_time := 0,
    lead_time_hours := 0, forecast_value := 5000, observed_value := 2999,
    error := 2001, absolute_error := 2001, squared_error := 4004001,
    percentage_error := none, bias := 2001 }

/-- Claim C6 (counterexample): a visibility record with absolute error 2001
is dropped by the aggregator's ceiling — visibility is not among the
exempted variables. -/
theorem visibility_dropped_by_ceiling :
    calculateModelVariableStats "24h" [visRec] = [] ∧
    visRec.variableName = "visibility" ∧ visRec.absolute_error = 2001 := by
  refine ⟨?_, rfl, rfl⟩
  have hin : decide (inBucket "24h" ((0 : ℚ))) = true := by decide
  have hdrop : droppedByCeiling visRec :=
    ⟨by decide, by decide, by decide, by norm_num [visRec]⟩
  have hl : visRec.lead_time_hours = 0 := rfl
  simp [calculateModelVariableStats, statsFold, List.filter_cons,
    List.filter_nil, hl, hin, if_pos hdrop]

/-- Aggregating one in-bucket record that passes the ceiling gives one
summary row with the record's own values. -/
theorem stats_single (b : String) (rec : Verification)
    (hb : inBucket b rec.lead_time_hours)
    (hnot : ¬ droppedByCeiling rec) :
    calculateModelVariableStats b [rec] =
      [{ model_id := rec.model_id, variableName := rec.variableName, n := 1,
         mae := rec.absolute_error, mse := rec.squared_error,
         rmse := Real.sqrt (max 0 rec.squared_error), bias := rec.bias,
         std_error := some 0 }] := by
  simp [calculateModelVariableStats, List.filter_cons, List.filter_nil,
    decide_eq_true hb, statsFold, if_neg hnot, groupUpsert, finalizeStat,
    addRec, emptySAcc]

/-- Claim C6 (amended): when aggregating records into per-(model, variable)
statistics, a record whose absolute error exceeds the fixed ceiling 2000 is
dropped unless its variable is `pressure_msl` or contains `occurrence` or
`probability` (bounded flags/probabilities) — those are never dropped by the
ceiling.  Visibility is NOT exempt (see the counterexample); records with
absolute error at most 2000 are always kept. -/
theorem ceiling_exceptions (b : String) (rec : Verification)
    (hb : inBucket b rec.lead_time_hours) :
    ((rec.variableName = "pressure_msl" ∨
      nameIncludes rec.variableName "occurrence" = true ∨
      nameIncludes rec.variableName "probability" = true) →
      ∃ s, calculateModelVariableStats b [rec] = [s] ∧ s.n = 1 ∧
        s.model_id = rec.model_id ∧ s.variableName = rec.variableName ∧
        s.mae = rec.absolute_error) ∧
    (rec.variableName ≠ "pressure_msl" →
      nameIncludes rec.variableName "occurrence" = false →
      nameIncludes rec.variableName "probability" = false →
      2000 < rec.absolute_error →
      calculateModelVariableStats b [rec] = []) ∧
    (rec.absolute_error ≤ 2000 →
      ∃ s, calculateModelVariableStats b [rec] = [s] ∧ s.n = 1 ∧
        s.mae = rec.absolute_error) := by
  refine ⟨?_, ?_, ?_⟩
  · intro hex
    have hnot : ¬ droppedByCeiling rec := by
      rintro ⟨hp, ho, hpr, -⟩
      rcases hex with h | h | h
      · exact hp h
      · rw [h] at ho
        exact absurd ho (by simp)
      · rw [h] at hpr
        exact absurd hpr (by simp)
    rw [stats_single b rec hb hnot]
    exact ⟨_, rfl, rfl, rfl, rfl, rfl⟩
  · intro h1 h2 h3 h4
    have hdrop : droppedByCeiling rec := ⟨h1, h2, h3, h4⟩
    simp [calculateModelVariableStats, List.filter_cons, List.filter_nil,
      decide_eq_true hb, statsFold, if_pos hdrop]
  · intro hle
    have hnot : ¬ droppedByCeiling rec := by
      rintro ⟨-, -, -, hgt⟩
      exact absurd hle (not_le.mpr hgt)
    rw [stats_single b rec hb hnot]
    exact ⟨_, rfl, rfl, rfl⟩

theorem ceiling_exceptions_witness :
    inBucket "24h" visRec.lead_time_hours ∧
    ((visRec.variableName ≠ "pressure_msl" →
      nameIncludes visRec.variableName "occurrence" = false →
      nameIncludes visRec.variableName "probability" = false →
      2000 < visRec.absolute_error →
      calculateModelVariableStats "24h" [visRec] = []) ∧
     (visRec.variableName ≠ "pressure_msl")) :=
  ⟨by decide,
   (ceiling_exceptions "24h" visRec (by decide)).2.1,
   by decide⟩

/-! ## Composite scorer (src/services/weatherService.ts,
`calculateCompositeStats`, lines 665-729) and the server fast leaderboard
(src/server/src/services/statsService.ts, `calculateLeaderboardFast`,
lines 216-294) -/

/-- `MIN_MAE_THRESHOLDS` (src/constants.ts lines 143-160). -/
def MIN_MAE_THRESHOLDS : List (String × ℝ) :=
  [("default", 0.1), ("temperature_2m", 0.5), ("dew_point_2m", 0.5),
   ("wind_speed_10m", 1.0), ("wind_direction_10m", 15.0),
   ("wind_gusts_10m", 1.5), ("wind_vector", 1.5), ("visibility", 1.0),
   ("precipitation", 0.2), ("rain_amount", 0.2), ("snow_amount", 0.2),
   ("freezing_rain_amount", 0.2), ("rain_occurrence", 0.05),
   ("snow_occurrence", 0.05), ("freezing_rain_occurrence", 0.05),
   ("precip_probability", 0.05)]

/-- `MIN_MAE_THRESHOLDS[variable] || MIN_MAE_THRESHOLDS['default']`: every
configured threshold is nonzero, so the JS falsy-fallback is an
absent-key fallback. -/
noncomputable def minMaeThreshold (v : String) : ℝ :=
  (MIN_MAE_THRESHOLDS.lookup v).getD
    ((MIN_MAE_THRESHOLDS.lookup "default").getD 0)

/-- The allowed-variable filter of lines 669-670: catalogue variables except
`pressure_msl`. -/
def validStatsOf (allStats : List ModelVariableStats) :
    List ModelVariableStats :=
  allStats.filter fun s =>
    (VERIFICATION_VARIABLES.map Prod.fst).contains s.variableName &&
    s.variableName != "pressure_msl"

/-- `Array.from(new Set(xs))`: distinct entries in first-appearance
order. -/
def dedupFirst : List String → List String
  | [] => []
  | a :: t => a :: dedupFirst (t.filter fun x => x != a)
termination_by l => l.length
decreasing_by
  simp only [List.length_cons]
  exact Nat.lt_succ_of_le (List.length_filter_le _ _)

/-- Line 674: the distinct variables present, in first-appearance order. -/
def presentVariablesOf (validStats : List ModelVariableStats) :
    List String :=
  dedupFirst (validStats.map (·.variableName))

/-- Line 675: the distinct models present, in first-appearance order. -/
def presentModelsOf (validStats : List ModelVariableStats) : List String :=
  dedupFirst (validStats.map (·.model_id))

/-- Lines 677-684: consensus baseline = mean MAE across the stats rows
reporting a variable (`none` when no row reports it, mirroring the absent
`consensusMae[variable]` entry). -/
noncomputable def consensusMaeOf (validStats : List ModelVariableStats)
    (v : String) : Option ℝ :=
  let statsForVar := validStats.filter fun s => s.variableName == v
  if statsForVar.length > 0 then
    some (((statsForVar.map (·.mae)).sum) / statsForVar.length)
  else none

/-- The running sums of lines 687-689. -/
structure ScoreAcc where
  sumScore : ℝ
  varCount : ℕ
  totalN : ℕ

/-- Lines 691-706: one model's loop over the present variables.  For each
variable with a defined finite baseline, the normalization denominator is
`max(baseline, threshold)` and the model's own row (if any) contributes
`mae / denom`; missing variables add nothing (the "NO PENALTIES" policy of
line 705). -/
noncomputable def scoreAcc (validStats : List ModelVariableStats)
    (presentVariables : List String) (modelId : String) : ScoreAcc :=
  presentVariables.foldl
    (fun acc v =>
      match consensusMaeOf validStats v with
      | none => acc
      | some baseline =>
        let threshold := minMaeThreshold v
        let denom := max baseline threshold
        match validStats.find? fun s =>
            s.model_id == modelId && s.variableName == v with
        | some stat =>
          { sumScore := acc.sumScore + stat.mae / denom,
            varCount := acc.varCount + 1, totalN := acc.totalN + stat.n }
        | none => acc)
    ⟨0, 0, 0⟩

/-- `calculateCompositeStats` (lines 665-729): the `overall_score` rows.
The zero-variable marker row (`mae: NaN`, lines 708-713) and the final
`Number.isFinite` filter (line 726) are modelled together by `filterMap`
with `none` on the `varCount = 0` branch; `n` is
`Math.floor(totalN / varCount)` (integer division). -/
noncomputable def calculateCompositeStats
    (allStats : List ModelVariableStats) : List ModelVariableStats :=
  let validStats := validStatsOf allStats
  if validStats.isEmpty then []
  else
    let presentVariables := presentVariablesOf validStats
    (presentModelsOf validStats).filterMap fun modelId =>
      let acc := scoreAcc validStats presentVariables modelId
      if acc.varCount = 0 then none
      else
        some { model_id := modelId, variableName := "overall_score",
               n := acc.totalN / acc.varCount,
               mae := acc.sumScore / acc.varCount,
               mse := 0, rmse := 0, bias := 0, std_error := none }

/-- One pre-aggregated SQL row consumed by `calculateLeaderboardFast`
(statsService.ts lines 220-241). -/
structure StatsRow where
  model_id : String
  variableName : String
  mae : ℝ
  mse : ℝ
  bias : ℝ
  n : ℕ

/-- A leaderboard row (interface `LeaderboardRow`, src/types.ts); the
always-`null` `avg_corr` and `avg_skill` fields are omitted. -/
structure LeaderboardRow where
  model : String
  avg_mae : ℝ
  avg_rmse : ℝ
  avg_mse : ℝ
  avg_bias : ℝ
  std_error : Option ℝ
  total_verifications : ℕ

/-- The model ids of `MODELS` (src/constants.ts lines 22-50) followed by the
two synthetic ids, in the initialization order of statsService.ts lines
248-255. -/
def leaderboardModelIds : List String :=
  ["ecmwf", "gfs", "gem", "dwd-icon", "jma", "cma", "meteofrance", "ukmo",
   "bom", "ecmwf-aifs", "gfs-graphcast", "gem-hrdps", "gem-regional",
   "ecmwf-04", "gfs-025", "average_of_models", "median_of_models"]

/-- The per-model sums of statsService.ts lines 257-271: rows for other
models are skipped, visibility rows are skipped for the overall score, and
each row contributes `mae / threshold` (no consensus baseline), `mse`,
`|bias|`, the max of `n`, and a variable count. -/
structure FastAcc where
  mae_sum : ℝ
  mse_sum : ℝ
  bias_sum : ℝ
  max_n : ℕ
  count : ℕ

noncomputable def fastAcc (statsRows : List StatsRow)
    (variableFilter : String) (m : String) : FastAcc :=
  statsRows.foldl
    (fun acc row =>
      if row.model_id == m then
        if variableFilter == "overall_score" &&
            row.variableName == "visibility" then acc
        else
          { mae_sum := acc.mae_sum + row.mae / minMaeThreshold
              row.variableName,
            mse_sum := acc.mse_sum + row.mse,
            bias_sum := acc.bias_sum + |row.bias|,
            max_n := max acc.max_n row.n,
            count := acc.count + 1 }
      else acc)
    ⟨0, 0, 0, 0, 0⟩

/-- `calculateLeaderboardFast` (statsService.ts lines 216-294): one row per
known model with at least one contributing variable, averaged and sorted by
ascending normalized MAE. -/
noncomputable def calculateLeaderboardFast (statsRows : List StatsRow)
    (variableFilter : String) : List LeaderboardRow :=
  (leaderboardModelIds.filterMap fun m =>
    let acc := fastAcc statsRows variableFilter m
    if acc.count = 0 then none
    else
      some { model := m, avg_mae := acc.mae_sum / acc.count,
             avg_rmse := Real.sqrt (acc.mse_sum / acc.count),
             avg_mse := acc.mse_sum / acc.count,
             avg_bias := acc.bias_sum / acc.count,
             std_error := none,
             total_verifications := acc.max_n }).insertionSort
    fun a b => a.avg_mae ≤ b.avg_mae

/-- A single-variable temperature stats row for a model. -/
def tempStat (m : String) (mae : ℝ) (n : ℕ) : ModelVariableStats :=
  { model_id := m, variableName := "temperature_2m", n := n, mae := mae,
    mse := 0, rmse := 0, bias := 0, std_error := none }

/-- A single-variable temperature SQL row for a model. -/
def tempRow (m : String) (mae : ℝ) (n : ℕ) : StatsRow :=
  { model_id := m, variableName := "temperature_2m", mae := mae, mse := 0,
    bias := 0, n := n }

/-- The two-model single-variable scenario: ecmwf and gfs reporting only
temperature. -/
def scenarioStats (maeA maeB : ℝ) (nA nB : ℕ) : List ModelVariableStats :=
  [tempStat "ecmwf" maeA nA, tempStat "gfs" maeB nB]

/-- The same scenario as pre-aggregated SQL rows. -/
def scenarioRows : List StatsRow :=
  [tempRow "ecmwf" 1 10, tempRow "gfs" 3 10]

/-- Claim C3 (counterexample): on the scenario of the claim (two models with
MAE 1.0 and 3.0 on a variable with threshold 0.5), the server-side composite
(`calculateLeaderboardFast`) normalizes by the threshold alone and outputs
contributions 2.0 and 6.0 — not the claimed 0.5 and 1.5. -/
theorem fast_leaderboard_divides_by_threshold_only :
    (calculateLeaderboardFast scenarioRows "overall_score").map
        (fun r => (r.model, r.avg_mae)) = [("ecmwf", 2), ("gfs", 6)] ∧
    (2 : ℝ) ≠ 0.5 ∧ (6 : ℝ) ≠ 1.5 := by
  refine ⟨?_, by norm_num, by norm_num⟩
  simp [calculateLeaderboardFast, scenarioRows, fastAcc, tempRow,
    leaderboardModelIds, minMaeThreshold, MIN_MAE_THRESHOLDS, List.lookup,
    List.insertionSort, List.orderedInsert]
  norm_num

/-- Claim C3 (amended): the client composite scorer
(`calculateCompositeStats`) normalizes each model's MAE by
`max(consensus baseline, per-variable threshold)` — on the scenario
(MAE 1.0 and 3.0, baseline 2.0, threshold 0.5) the contributions are 0.5 and
1.5 — whereas the server fast leaderboard (`calculateLeaderboardFast`)
divides by the per-variable threshold alone, giving 2.0 and 6.0 on the same
scenario. -/
theorem composite_denominator_policies (maeA maeB : ℝ) (nA nB : ℕ) :
    (calculateCompositeStats (scenarioStats maeA maeB nA nB)).map
        (fun s => (s.model_id, s.mae)) =
      [("ecmwf", maeA / max ((maeA + maeB) / 2) 0.5),
       ("gfs", maeB / max ((maeA + maeB) / 2) 0.5)] ∧
    (calculateCompositeStats (scenarioStats 1 3 10 10)).map
        (fun s => (s.model_id, s.mae)) =
      [("ecmwf", 0.5), ("gfs", 1.5)] ∧
    (calculateLeaderboardFast scenarioRows "overall_score").map
        (fun r => (r.model, r.avg_mae)) = [("ecmwf", 2), ("gfs", 6)] := by
  refine ⟨?_, ?_, ?_⟩
  · simp [calculateCompositeStats, validStatsOf, presentVariablesOf,
      presentModelsOf, consensusMaeOf, scoreAcc, scenarioStats, tempStat,
      dedupFirst, minMaeThreshold, MIN_MAE_THRESHOLDS, List.lookup,
      VERIFICATION_VARIABLES]
  · simp [calculateCompositeStats, validStatsOf, presentVariablesOf,
      presentModelsOf, consensusMaeOf, scoreAcc, scenarioStats, tempStat,
      dedupFirst, minMaeThreshold, MIN_MAE_THRESHOLDS, List.lookup,
      VERIFICATION_VARIABLES]
    norm_num
  · simp [calculateLeaderboardFast, scenarioRows, fastAcc, tempRow,
      leaderboardModelIds, minMaeThreshold, MIN_MAE_THRESHOLDS, List.lookup,
      List.insertionSort, List.orderedInsert]
    norm_num

/-- Claim C7: in both composite rankings, a model whose statistics
contribute to zero variables produces no ranked row — every emitted row
belongs to a model with a positive contributing-variable count, and its
score is the real number sumScore / varCount (resp. mae_sum / count), never
a NaN/Infinity marker (the `varCount = 0` marker rows are filtered out). -/
theorem composite_excludes_zero_variable_models :
    (∀ allStats : List ModelVariableStats,
      ∀ s ∈ calculateCompositeStats allStats,
        0 < (scoreAcc (validStatsOf allStats)
              (presentVariablesOf (validStatsOf allStats))
              s.model_id).varCount ∧
        s.mae = (scoreAcc (validStatsOf allStats)
              (presentVariablesOf (validStatsOf allStats))
              s.model_id).sumScore /
            ((scoreAcc (validStatsOf allStats)
              (presentVariablesOf (validStatsOf allStats))
              s.model_id).varCount : ℝ)) ∧
    (∀ (rows : List StatsRow) (filt : String),
      ∀ r ∈ calculateLeaderboardFast rows filt,
        0 < (fastAcc rows filt r.model).count ∧
        r.avg_mae = (fastAcc rows filt r.model).mae_sum /
            ((fastAcc rows filt r.model).count : ℝ)) := by
  constructor
  · intro allStats s hs
    simp only [calculateCompositeStats] at hs
    split at hs
    · exact absurd hs (List.not_mem_nil _)
    · rw [List.mem_filterMap] at hs
      obtain ⟨m, -, hm⟩ := hs
      split at hm
      · exact absurd hm (by simp)
      · rename_i hcount
        obtain rfl := Option.some_injective _ hm
        exact ⟨Nat.pos_of_ne_zero hcount, rfl⟩
  · intro rows filt r hr
    simp only [calculateLeaderboardFast] at hr
    rw [List.mem_insertionSort] at hr
    rw [List.mem_filterMap] at hr
    obtain ⟨m, -, hm⟩ := hr
    split at hm
    · exact absurd hm (by simp)
    · rename_i hcount
      obtain rfl := Option.some_injective _ hm
      exact ⟨Nat.pos_of_ne_zero hcount, rfl⟩

/-- The ecmwf overall-score row of the concrete scenario. -/
def scenarioScoreA : ModelVariableStats :=
  { model_id := "ecmwf", variableName := "overall_score", n := 10,
    mae := 0.5, mse := 0, rmse := 0, bias := 0, std_error := none }

theorem scenarioScoreA_mem :
    scenarioScoreA ∈ calculateCompositeStats (scenarioStats 1 3 10 10) := by
  simp [calculateCompositeStats, validStatsOf, presentVariablesOf,
    presentModelsOf, consensusMaeOf, scoreAcc, scenarioStats, tempStat,
    dedupFirst, minMaeThreshold, MIN_MAE_THRESHOLDS, List.lookup,
    VERIFICATION_VARIABLES, scenarioScoreA]
  norm_num

theorem composite_excludes_zero_variable_models_witness :
    scenarioScoreA ∈ calculateCompositeStats (scenarioStats 1 3 10 10) ∧
    (0 < (scoreAcc (validStatsOf (scenarioStats 1 3 10 10))
          (presentVariablesOf (validStatsOf (scenarioStats 1 3 10 10)))
          scenarioScoreA.model_id).varCount ∧
      scenarioScoreA.mae =
        (scoreAcc (validStatsOf (scenarioStats 1 3 10 10))
          (presentVariablesOf (validStatsOf (scenarioStats 1 3 10 10)))
          scenarioScoreA.model_id).sumScore /
        ((scoreAcc (validStatsOf (scenarioStats 1 3 10 10))
          (presentVariablesOf (validStatsOf (scenarioStats 1 3 10 10)))
          scenarioScoreA.model_id).varCount : ℝ)) :=
  ⟨scenarioScoreA_mem,
   (composite_excludes_zero_variable_models).1 (scenarioStats 1 3 10 10)
     scenarioScoreA scenarioScoreA_mem⟩

/-! ## Ground-truth reconciler (src/services/weatherService.ts,
`fetchMETARHistory`, lines 144-220) -/

/-- One cloud layer of a METAR report (`metar.clouds`). -/
structure CloudLayer where
  cover : String
  base : Option ℝ := none

/-- One raw station report, already grouped to its hour (the `metarMap`
entry of lines 122-142).  Numeric fields are post-`parseNum` values.  The
word-boundary regular-expression tests of lines 174-177
(`\b(FZRA|FZDZ)\b`, `\b(RA|DZ|SHRA|TSRA)\b`, `\b(SN|SG|SHSN|BLSN)\b`,
`\bTS`) are abstracted as the boolean fields `matchesFZ`, `matchesRA`,
`matchesSN`, `matchesTS` carried with the report; plain
`String.includes` tests stay on `rawOb`. -/
structure MetarReport where
  temp : Option ℝ := none
  dewp : Option ℝ := none
  wdir : Option ℝ := none
  wspd : Option ℝ := none
  wgst : Option ℝ := none
  gust : Option ℝ := none
  visib : Option ℝ := none
  altim : Option ℝ := none
  precipIn : Option ℝ := none
  precip : Option ℝ := none
  clouds : List CloudLayer := []
  rawOb : String := ""
  matchesFZ : Bool := false
  matchesRA : Bool := false
  matchesSN : Bool := false
  matchesTS : Bool := false

/-- One hour of the reanalysis series (the `hybridMap` entry built by
`fetchHybridGroundTruth`, lines 52-68), with units already converted. -/
structure EraRow where
  temperature : Option ℝ := none
  dewpoint : Option ℝ := none
  pressure_msl : Option ℝ := none
  wind_speed : Option ℝ := none
  wind_dir : Option ℝ := none
  era_precip_amt : Option ℝ := none
  era_rain_amt : Option ℝ := none
  era_snow_amt : Option ℝ := none
  era_wind_gust : Option ℝ := none

/-- Lines 155-163: the first BKN/OVC/VV layer with a base gives the ceiling
in meters (base × 0.3048). -/
def findCeiling (clouds : List CloudLayer) : Option ℝ :=
  match clouds.find? fun l =>
      (l.cover == "BKN" || l.cover == "OVC" || l.cover == "VV") &&
      l.base.isSome with
  | some l => l.base.map (· * 0.3048)
  | none => none

/-- Lines 164-171: precipitation in mm from `precipIn` (× 25.4), else the
parsed `precip` field (× 25.4), else 0 when the raw text carries `P0000`.
(A present-but-unparseable `precip` string, which would stay null, is
subsumed by `none` here.) -/
def precipMmOf (m : MetarReport) : Option ℝ :=
  match m.precipIn with
  | some v => some (v * 25.4)
  | none =>
    match m.precip with
    | some v => some (v * 25.4)
    | none => if nameIncludes m.rawOb "P0000" then some 0 else none

/-- Lines 173-177: the phenomenon-code set in push order FZRA, RA, SN, TS.
`RA` is pushed only when the code list does not already hold `FZRA`, which
is exactly when the FZRA/FZDZ regex did not match. -/
def weatherCodesOf (m : MetarReport) : List String :=
  (if m.matchesFZ then ["FZRA"] else []) ++
  (if m.matchesRA && !m.matchesFZ then ["RA"] else []) ++
  (if m.matchesSN then ["SN"] else []) ++
  (if m.matchesTS || nameIncludes m.rawOb "TSRA" then ["TS"] else [])

/-- Lines 179-197: the Observation built from the hour's primary station
report, with unit conversions (wind × 1.852 kt→km/h, visibility × 1609.34
mi→m, altimeter × 33.8639 inHg→hPa-scaled) and reanalysis amount fields
attached verbatim. -/
def mkMetarObs (targetTime : ℤ) (m : MetarReport) (era : Option EraRow) :
    Observation :=
  { obs_time := targetTime,
    report_type := if nameIncludes m.rawOb "SPECI" then "SPECI"
      else "METAR",
    temperature := m.temp,
    dewpoint := m.dewp,
    wind_dir := m.wdir,
    wind_speed := m.wspd.map (· * 1.852),
    wind_gust :=
      (match m.wgst with
       | some g => some g
       | none => m.gust).map (· * 1.852),
    visibility := m.visib.map (· * 1609.34),
    pressure_msl := m.altim.map (· * 33.8639),
    raw_text := m.rawOb,
    precip_1h := precipMmOf m,
    ceiling_agl := findCeiling m.clouds,
    weather_codes := weatherCodesOf m,
    era_snow_amt := era.bind (·.era_snow_amt),
    era_precip_amt := era.bind (·.era_precip_amt),
    era_rain_amt := era.bind (·.era_rain_amt),
    era_wind_gust := era.bind (·.era_wind_gust) }

/-- Lines 199-217: the `SYNTHETIC` Observation filled from reanalysis when
the hour has no station report: empty phenomenon-code set, fixed raw text,
null visibility/precip/ceiling. -/
def mkSyntheticObs (targetTime : ℤ) (era : Option EraRow) : Observation :=
  { obs_time := targetTime,
    report_type := "SYNTHETIC",
    temperature := era.bind (·.temperature),
    dewpoint := era.bind (·.dewpoint),
    wind_dir := era.bind (·.wind_dir),
    wind_speed := era.bind (·.wind_speed),
    wind_gust := era.bind (·.era_wind_gust),
    visibility := none,
    pressure_msl := era.bind (·.pressure_msl),
    raw_text := "METAR MISSING - ERA5 FILL",
    precip_1h := none,
    ceiling_agl := none,
    weather_codes := [],
    era_snow_amt := era.bind (·.era_snow_amt),
    era_precip_amt := era.bind (·.era_precip_amt),
    era_rain_amt := era.bind (·.era_rain_amt),
    era_wind_gust := era.bind (·.era_wind_gust) }

/-- Lines 146-219, one target hour: skip when neither a station report nor
reanalysis data exists; build from the station report when present, else
the SYNTHETIC reanalysis fill. -/
def reconcileHour (metar : Option MetarReport) (era : Option EraRow)
    (targetTime : ℤ) : Option Observation :=
  match metar, era with
  | none, none => none
  | some m, e => some (mkMetarObs targetTime m e)
  | none, some _ => some (mkSyntheticObs targetTime era)

/-- The 72-hour reconstruction loop of lines 144-220, over the grouped
station reports and the reanalysis series. -/
def buildObservations (metarMap : ℤ → Option MetarReport)
    (hybridData : ℤ → Option EraRow) (currentHour : ℤ) :
    List Observation :=
  (List.range 72).filterMap fun (i : ℕ) =>
    reconcileHour (metarMap (currentHour - (i : ℤ) * 3600000))
      (hybridData (currentHour - (i : ℤ) * 3600000))
      (currentHour - (i : ℤ) * 3600000)

/-- A reanalysis-only hour. -/
def eraOnlyRow : EraRow := { temperature := some (-3), era_snow_amt := some 1 }

/-- A station-report map with no reports at all. -/
def noMetarMap : ℤ → Option MetarReport := fun _ => none

/-- Reanalysis data present only at epoch 0. -/
def eraOnlyMap : ℤ → Option EraRow :=
  fun t => if t = 0 then some eraOnlyRow else none

/-- Claim C1 (counterexample): an hour with zero station reports but with
reanalysis data present DOES yield an Observation — the SYNTHETIC
reanalysis fill — contradicting the claim that such hours are skipped. -/
theorem synthetic_observation_from_reanalysis :
    noMetarMap 0 = none ∧
    ∃ o ∈ buildObservations noMetarMap eraOnlyMap 0,
      o.obs_time = 0 ∧ o.report_type = "SYNTHETIC" := by
  refine ⟨rfl, mkSyntheticObs 0 (some eraOnlyRow), ?_, rfl, rfl⟩
  rw [buildObservations, List.mem_filterMap]
  refine ⟨0, ?_, ?_⟩
  · simp
  · norm_num [reconcileHour, noMetarMap, eraOnlyMap]


/-- Claim C1 (amended): the reconstruction loop creates an Observation for
an hour iff a station report or a reanalysis hour exists for it; with zero
station reports but reanalysis present the created record is the SYNTHETIC
reanalysis fill (never a station observation), and hours with neither
source are skipped. -/
theorem observation_existence_policy (metarMap : ℤ → Option MetarReport)
    (hybridData : ℤ → Option EraRow) (currentHour : ℤ) :
    (∀ t : ℤ, reconcileHour (metarMap t) (hybridData t) t = none ↔
      (metarMap t = none ∧ hybridData t = none)) ∧
    (∀ o ∈ buildObservations metarMap hybridData currentHour,
      ¬ (metarMap o.obs_time = none ∧ hybridData o.obs_time = none)) ∧
    (∀ (t : ℤ) (e : EraRow), metarMap t = none → hybridData t = some e →
      reconcileHour (metarMap t) (hybridData t) t =
        some (mkSyntheticObs t (some e)) ∧
      (mkSyntheticObs t (some e)).report_type = "SYNTHETIC") := by
  refine ⟨?_, ?_, ?_⟩
  · intro t
    cases hmm : metarMap t <;> cases her : hybridData t <;>
      simp [reconcileHour]
  · intro o ho
    rw [buildObservations, List.mem_filterMap] at ho
    obtain ⟨i, -, hi⟩ := ho
    rintro ⟨hmm, her⟩
    cases hm2 : metarMap (currentHour - (i : ℤ) * 3600000) with
    | none =>
      cases he2 : hybridData (currentHour - (i : ℤ) * 3600000) with
      | none =>
        rw [hm2, he2] at hi
        simp [reconcileHour] at hi
      | some e =>
        rw [hm2, he2] at hi
        simp only [reconcileHour] at hi
        obtain rfl := Option.some_injective _ hi
        simp only [mkSyntheticObs] at her
        rw [her] at he2
        exact Option.noConfusion he2
    | some m =>
      rw [hm2] at hi
      simp only [reconcileHour] at hi
      obtain rfl := Option.some_injective _ hi
      simp only [mkMetarObs] at hmm
      rw [hmm] at hm2
      exact Option.noConfusion hm2
  · intro t e hm he
    rw [hm, he]
    exact ⟨rfl, rfl⟩

theorem observation_existence_policy_witness :
    noMetarMap 0 = none ∧ eraOnlyMap 0 = some eraOnlyRow ∧
    (reconcileHour (noMetarMap 0) (eraOnlyMap 0) 0 =
        some (mkSyntheticObs 0 (some eraOnlyRow)) ∧
      (mkSyntheticObs 0 (some eraOnlyRow)).report_type = "SYNTHETIC") :=
  ⟨rfl, by norm_num [eraOnlyMap],
   (observation_existence_policy noMetarMap eraOnlyMap 0).2.2 0 eraOnlyRow
     rfl (by norm_num [eraOnlyMap])⟩
